import Mathlib

/-!
Shallow embedding of the core logic of the QR utility repository:

* src/src/utils/validation.ts — the sanitizers, the validators, and the
  withRetry backoff executor;
* src/src/components/QRGenerator.tsx — the template formatters and the
  saveToHistory bounded history list;
* src/src/components/DiagnosticModule.tsx — the diagnostic battery and the
  bot-detection heuristic scoring.

JS strings are modelled as lists of characters.  JS whitespace (trim and
the regex class for whitespace) is modelled by its ASCII subset, which is
exact on the ASCII inputs the claims are about.  The host URL parser (the
WHATWG URL constructor) is an external collaborator and is modelled as an
abstract parameter of the url sanitizer/validator.
-/

/-- Type of the modelled JS strings. -/
abbrev Str := List Char

/-- Characters treated as whitespace: tab, LF, VT, FF, CR, space
(the ASCII subset of what JS trim and the whitespace regex class accept). -/
def isJsWs (c : Char) : Bool :=
  c.toNat == 9 || c.toNat == 10 || c.toNat == 11 || c.toNat == 12 ||
    c.toNat == 13 || c.toNat == 32

/-- Remove the trailing characters satisfying p (the right half of JS
trim). -/
def rstrip (p : Char → Bool) : Str → Str
  | [] => []
  | c :: cs =>
    match rstrip p cs with
    | [] => if p c then [] else [c]
    | x :: xs => c :: x :: xs

/-- JS String.prototype.trim: drop leading and trailing whitespace. -/
def trimJs (s : Str) : Str :=
  rstrip isJsWs (s.dropWhile isJsWs)

/-- Case-insensitive prefix test: does s start with pat (pat given in
lowercase, as in the source regex literals)? -/
def ciStartsWith : Str → Str → Bool
  | [], _ => true
  | _ :: _, [] => false
  | p :: ps, c :: cs => (c.toLower == p) && ciStartsWith ps cs

/-- Scanner for the global case-insensitive literal-word replace: walks the
string left to right; a positive skip count means the tail of a matched
occurrence is still being consumed. -/
def replScan (pat : Str) : Str → Nat → Str
  | [], _ => []
  | _ :: cs, k + 1 => replScan pat cs k
  | c :: cs, 0 =>
    if ciStartsWith pat (c :: cs) then
      replScan pat cs (pat.length - 1)
    else
      c :: replScan pat cs 0

/-- JS String.prototype.replace with a global case-insensitive regex whose
pattern is a literal word: one left-to-right pass deleting non-overlapping
case-insensitive occurrences of pat. -/
def replaceAllCI (pat s : Str) : Str :=
  replScan pat s 0

/-- Does s contain a case-insensitive occurrence of pat at some position? -/
def ciContains (pat : Str) : Str → Bool
  | [] => ciStartsWith pat []
  | c :: cs => ciStartsWith pat (c :: cs) || ciContains pat cs

/-- JS String.prototype.split on a single separator character: every
separator splits, empty fields are kept, the empty string yields one empty
field. -/
def splitOnChar (sep : Char) : Str → List Str
  | [] => [[]]
  | c :: cs =>
    match splitOnChar sep cs with
    | [] => [[c]]
    | p :: ps => if c == sep then [] :: p :: ps else (c :: p) :: ps

/-- Case-sensitive prefix test (JS String.prototype.startsWith). -/
def startsWithStr : Str → Str → Bool
  | [], _ => true
  | _ :: _, [] => false
  | p :: ps, c :: cs => (p == c) && startsWithStr ps cs

namespace sanitize

/-- sanitize.text: remove angle brackets, remove case-insensitive
occurrences of the literal substrings for the javascript and data
protocols, then trim. -/
def text (input : Str) : Str :=
  trimJs (replaceAllCI ("data:".toList)
    (replaceAllCI ("javascript:".toList)
      (input.filter (fun c => c != '<' && c != '>'))))

/-- sanitize.url: try the host URL parser on the input (prefixed with the
https scheme when it does not start with http); on success return the
canonical form, on failure strip the characters outside the allowed set.
The host parser is the abstract parameter parse (none models a parse
failure). -/
def url (parse : Str → Option Str) (input : Str) : Str :=
  match parse (if startsWithStr ("http".toList) input then input
               else ("https://".toList) ++ input) with
  | some u => u
  | none =>
    input.filter (fun c =>
      c.isAlpha || c.isDigit || c == ':' || c == '/' || c == '?' ||
        c == '.' || c == '_' || c == '-')

/-- sanitize.email: lowercase, trim, strip characters outside the allowed
set. -/
def email (input : Str) : Str :=
  (trimJs (input.map Char.toLower)).filter (fun c =>
    c.isAlpha || c.isDigit || c == '@' || c == '.' || c == '_' || c == '-')

/-- sanitize.phone: strip characters outside digits, plus, whitespace,
hyphen, parentheses and period, then trim. -/
def phone (input : Str) : Str :=
  trimJs (input.filter (fun c =>
    c == '+' || c.isDigit || isJsWs c || c == '-' || c == '(' ||
      c == ')' || c == '.'))

/-- sanitize.wifi: strip semicolons and double quotes, then trim. -/
def wifi (input : Str) : Str :=
  trimJs (input.filter (fun c => c != ';' && c != '"'))

/-- sanitize.contact: strip semicolons and double quotes, then trim. -/
def contact (input : Str) : Str :=
  trimJs (input.filter (fun c => c != ';' && c != '"'))

end sanitize

/-- ValidationResult record of validation.ts. -/
structure ValidationResult where
  isValid : Bool
  error : Option Str
  sanitizedValue : Option Str
deriving DecidableEq, Repr

/-- A failing result: isValid false, an error message, no sanitized value
(the object literal with only the error field set). -/
def failR (msg : Str) : ValidationResult := ⟨false, some msg, none⟩

/-- A succeeding result: isValid true, no error, a sanitized value. -/
def okR (v : Str) : ValidationResult := ⟨true, none, some v⟩

/-- Helper for the minimum/maximum length guards: a numeric option is
truthy in JS only when present and nonzero. -/
def minLenMsg (m : Nat) : Str :=
  ("Minimum length is ".toList) ++ (Nat.repr m).toList ++ (" characters".toList)

/-- Message for a maximum length violation. -/
def maxLenMsg (m : Nat) : Str :=
  ("Maximum length is ".toList) ++ (Nat.repr m).toList ++ (" characters".toList)

/-- ValidationOptions record of validation.ts.  The regex option is
modelled as an abstract predicate on the sanitized string. -/
structure ValidationOptions where
  maxLength : Option Nat
  minLength : Option Nat
  required : Bool
  pattern : Option (Str → Bool)
  customValidator : Option (Str → ValidationResult)

/-- Character class of the phone regex: digits, whitespace, hyphen,
parentheses, period. -/
def phoneClassChar (c : Char) : Bool :=
  c.isDigit || isJsWs c || c == '-' || c == '(' || c == ')' || c == '.'

/-- Semantics of the phone regex (optional leading plus, then at least
seven characters of the class, anchored both ends). -/
def phoneRegexTest (s : Str) : Bool :=
  match s with
  | '+' :: rest => rest.all phoneClassChar && decide (7 ≤ rest.length)
  | _ => s.all phoneClassChar && decide (7 ≤ s.length)

/-- Semantics of the email regex (nonempty local part without whitespace
or at-sign, one at-sign, then a domain without whitespace or at-sign
containing an interior dot): the backtracking regex matches exactly when
such a decomposition exists. -/
def emailRegexTest (s : Str) : Bool :=
  match splitOnChar '@' s with
  | [a, d] =>
    !a.isEmpty && a.all (fun c => !isJsWs c) && d.all (fun c => !isJsWs c) &&
      ((d.drop 1).dropLast.contains '.')
  | _ => false

/-- The recognized WiFi security tokens. -/
def validSecurity : List Str :=
  [("WPA".toList), ("WPA2".toList), ("WPA3".toList), ("WEP".toList),
    ("NONE".toList)]

namespace validate

/-- Last step of validate.text: the custom validator result is returned
as-is when present, otherwise success with the sanitized value. -/
def textFinish (o : ValidationOptions) (sanitized : Str) : ValidationResult :=
  match o.customValidator with
  | some cv => cv sanitized
  | none => okR sanitized

/-- Pattern step of validate.text. -/
def textPatternStep (o : ValidationOptions) (sanitized : Str) : ValidationResult :=
  match o.pattern with
  | some pt => if !(pt sanitized) then failR ("Invalid format".toList)
               else textFinish o sanitized
  | none => textFinish o sanitized

/-- Maximum length step of validate.text (zero is falsy in JS, so a zero
bound is ignored). -/
def textMaxStep (o : ValidationOptions) (sanitized : Str) : ValidationResult :=
  match o.maxLength with
  | some m => if m != 0 && decide (sanitized.length > m) then failR (maxLenMsg m)
              else textPatternStep o sanitized
  | none => textPatternStep o sanitized

/-- Minimum length step of validate.text (zero is falsy in JS, so a zero
bound is ignored). -/
def textMinStep (o : ValidationOptions) (sanitized : Str) : ValidationResult :=
  match o.minLength with
  | some m => if m != 0 && decide (sanitized.length < m) then failR (minLenMsg m)
              else textMaxStep o sanitized
  | none => textMaxStep o sanitized

/-- validate.text. -/
def text (o : ValidationOptions) (input : Str) : ValidationResult :=
  let sanitized := sanitize.text input
  if o.required && sanitized.isEmpty then failR ("This field is required".toList)
  else textMinStep o sanitized

/-- validate.url, parameterized by the host URL parser. -/
def url (parse : Str → Option Str) (input : Str) : ValidationResult :=
  let sanitized := sanitize.url parse input
  match parse sanitized with
  | some _ => okR sanitized
  | none => failR ("Invalid URL format".toList)

/-- validate.email. -/
def email (input : Str) : ValidationResult :=
  let sanitized := sanitize.email input
  if !(emailRegexTest sanitized) then failR ("Invalid email format".toList)
  else okR sanitized

/-- validate.phone. -/
def phone (input : Str) : ValidationResult :=
  let sanitized := sanitize.phone input
  if !(phoneRegexTest sanitized) then failR ("Invalid phone number format".toList)
  else okR sanitized

/-- validate.wifi. -/
def wifi (input : Str) : ValidationResult :=
  let sanitized := sanitize.wifi input
  let parts := splitOnChar ',' sanitized
  if parts.length < 3 then
    failR ("Please provide: NetworkName,Password,SecurityType".toList)
  else
    let ssid := trimJs (parts.getD 0 [])
    let password := trimJs (parts.getD 1 [])
    let security := trimJs (parts.getD 2 [])
    if ssid.isEmpty then failR ("Network name is required".toList)
    else if password.isEmpty then failR ("Password is required".toList)
    else if !(validSecurity.contains (security.map Char.toUpper)) then
      failR ("Security type must be: WPA, WPA2, WPA3, WEP, or NONE".toList)
    else okR sanitized

/-- Email step of validate.contact (a missing error field of a failing
result would be interpolated by JS as the text undefined). -/
def contactEmailStep (sanitized em : Str) : ValidationResult :=
  if !em.isEmpty then
    let emailValidation := email em
    if !emailValidation.isValid then
      failR (("Invalid email: ".toList) ++
        emailValidation.error.getD ("undefined".toList))
    else okR sanitized
  else okR sanitized

/-- Phone step of validate.contact. -/
def contactPhoneStep (sanitized ph em : Str) : ValidationResult :=
  if !ph.isEmpty then
    let phoneValidation := phone ph
    if !phoneValidation.isValid then
      failR (("Invalid phone: ".toList) ++
        phoneValidation.error.getD ("undefined".toList))
    else contactEmailStep sanitized em
  else contactEmailStep sanitized em

/-- validate.contact. -/
def contact (input : Str) : ValidationResult :=
  let sanitized := sanitize.contact input
  let parts := splitOnChar ',' sanitized
  if parts.length < 3 then failR ("Please provide: Name,Phone,Email".toList)
  else
    let nm := trimJs (parts.getD 0 [])
    let ph := trimJs (parts.getD 1 [])
    let em := trimJs (parts.getD 2 [])
    if nm.isEmpty then failR ("Name is required".toList)
    else contactPhoneStep sanitized ph em

end validate

/-!
withRetry of validation.ts.  The asynchronous operation is modelled as a
function from the 1-based attempt number to a result or a thrown error;
the returned pair carries the final outcome together with the list of
backoff wait durations actually performed.  An error outcome carries the
JS lastError variable, which is undefined (none) only when the loop body
never ran.
-/

/-- The retry loop: run the given attempt and then up to remaining further
ones; a zero remaining count means the loop guard failed and the current
lastError is thrown.  The inner zero test mirrors the attempt equals
maxRetries test of the source. -/
def retryLoop {E A : Type} (op : Nat → Except E A) (delay : Nat) :
    Nat → Nat → Option E → Except (Option E) A × List Nat
  | _, 0, lastError => (.error lastError, [])
  | attempt, remaining + 1, _ =>
    match op attempt with
    | .ok v => (.ok v, [])
    | .error e =>
      if remaining = 0 then (.error (some e), [])
      else
        let rest := retryLoop op delay (attempt + 1) remaining (some e)
        (rest.1, delay * 2 ^ (attempt - 1) :: rest.2)

/-- withRetry: attempts run from 1 to maxRetries with exponential backoff
waits between attempts. -/
def withRetry {E A : Type} (op : Nat → Except E A) (maxRetries delay : Nat) :
    Except (Option E) A × List Nat :=
  retryLoop op delay 1 maxRetries none

/-- QRHistory entry of QRGenerator.tsx. -/
structure QRHistory where
  id : Str
  content : Str
  template : Str
  timestamp : Nat
  qrDataUrl : Str
deriving DecidableEq, Repr

/-- saveToHistory of QRGenerator.tsx: build the new entry (its id and
timestamp come from the clock, passed here as arguments) and keep it in
front of the first nine existing entries. -/
def saveToHistory (nowId : Str) (now : Nat)
    (content templateName qrDataUrl : Str)
    (qrHistory : List QRHistory) : List QRHistory :=
  let newEntry : QRHistory := ⟨nowId, content, templateName, now, qrDataUrl⟩
  newEntry :: qrHistory.take 9

/-- The wifi template formatter of qrTemplates in QRGenerator.tsx: with at
least three comma-separated parts emit the WIFI payload, otherwise return
the value unchanged. -/
def wifiFormat (value : Str) : Str :=
  let parts := splitOnChar ',' value
  if 3 ≤ parts.length then
    ("WIFI:T:".toList) ++ parts.getD 2 [] ++ (";S:".toList) ++
      parts.getD 0 [] ++ (";P:".toList) ++ parts.getD 1 [] ++ (";;".toList)
  else value

/-! Diagnostic battery of DiagnosticModule.tsx.  Browser capabilities and
permission prompt outcomes are modelled by an environment record; each
check is a pure function of that environment. -/

/-- Status of a diagnostic result. -/
inductive DiagStatus where
  | pending
  | passed
  | failed
  | skipped
deriving DecidableEq, Repr

/-- DiagnosticResult record of DiagnosticModule.tsx. -/
structure DiagnosticResult where
  name : Str
  status : DiagStatus
  message : Str
  details : Option Str
deriving DecidableEq, Repr

/-- Outcome of a getUserMedia request, classified the way the source
inspects the thrown error name. -/
inductive MediaOutcome where
  | granted
  | notAllowed
  | notFound
  | otherError (msg : Str)
deriving DecidableEq, Repr

/-- State of the Notification permission. -/
inductive NotifPerm where
  | granted
  | denied
  | defaultPerm
deriving DecidableEq, Repr

/-- The browser environment observed by the checks. -/
structure Env where
  webRTCOk : Bool
  webGLThrows : Bool
  webGLCtx : Bool
  serviceWorkerIn : Bool
  indexedDBIn : Bool
  audioCtxAvail : Bool
  audioCtxThrows : Bool
  mediaDevicesOk : Bool
  cameraOutcome : MediaOutcome
  micOutcome : MediaOutcome
  notifSupported : Bool
  notifPerm : NotifPerm
  notifRequestGranted : Bool
  bot1 : Bool
  bot2 : Bool
  bot3 : Bool
  bot4 : Bool
  bot5 : Bool
deriving DecidableEq, Repr

/-- checkWebRTC: constructing a peer connection succeeds or throws. -/
def checkWebRTC (env : Env) : DiagnosticResult :=
  if env.webRTCOk then
    ⟨("WebRTC Support".toList), .passed, ("WebRTC is supported".toList), none⟩
  else
    ⟨("WebRTC Support".toList), .failed, ("WebRTC not supported".toList), none⟩

/-- checkWebGL: a thrown probe is caught; otherwise classify on whether a
context was obtained. -/
def checkWebGL (env : Env) : DiagnosticResult :=
  if env.webGLThrows then
    ⟨("WebGL Support".toList), .failed, ("WebGL check failed".toList), none⟩
  else if env.webGLCtx then
    ⟨("WebGL Support".toList), .passed, ("WebGL is supported".toList), none⟩
  else
    ⟨("WebGL Support".toList), .failed, ("WebGL not supported".toList), none⟩

/-- checkServiceWorkers. -/
def checkServiceWorkers (env : Env) : DiagnosticResult :=
  if env.serviceWorkerIn then
    ⟨("Service Workers".toList), .passed, ("Service Workers supported".toList), none⟩
  else
    ⟨("Service Workers".toList), .failed, ("Service Workers not supported".toList), none⟩

/-- checkIndexedDB. -/
def checkIndexedDB (env : Env) : DiagnosticResult :=
  if env.indexedDBIn then
    ⟨("IndexedDB Support".toList), .passed, ("IndexedDB is supported".toList), none⟩
  else
    ⟨("IndexedDB Support".toList), .failed, ("IndexedDB not supported".toList), none⟩

/-- checkAudioContext: when the constructor is available its construction
may throw (caught); otherwise the feature is absent. -/
def checkAudioContext (env : Env) : DiagnosticResult :=
  if env.audioCtxAvail then
    if env.audioCtxThrows then
      ⟨("Audio Context".toList), .failed, ("Audio Context check failed".toList), none⟩
    else
      ⟨("Audio Context".toList), .passed, ("Audio Context supported".toList), none⟩
  else
    ⟨("Audio Context".toList), .failed, ("Audio Context not supported".toList), none⟩

/-- checkCameraPermissions. -/
def checkCameraPermissions (env : Env) : DiagnosticResult :=
  if !env.mediaDevicesOk then
    ⟨("Camera Permissions".toList), .failed, ("Camera API not supported".toList), none⟩
  else
    match env.cameraOutcome with
    | .granted =>
      ⟨("Camera Permissions".toList), .passed, ("Camera access granted".toList), none⟩
    | .notAllowed =>
      ⟨("Camera Permissions".toList), .failed, ("Camera access denied".toList),
        some ("Please allow camera access in your browser settings".toList)⟩
    | .notFound =>
      ⟨("Camera Permissions".toList), .skipped, ("No camera detected".toList), none⟩
    | .otherError msg =>
      ⟨("Camera Permissions".toList), .failed, ("Camera check failed".toList), some msg⟩

/-- checkMicrophonePermissions. -/
def checkMicrophonePermissions (env : Env) : DiagnosticResult :=
  if !env.mediaDevicesOk then
    ⟨("Microphone Permissions".toList), .failed, ("Audio API not supported".toList), none⟩
  else
    match env.micOutcome with
    | .granted =>
      ⟨("Microphone Permissions".toList), .passed, ("Microphone access granted".toList), none⟩
    | .notAllowed =>
      ⟨("Microphone Permissions".toList), .failed, ("Microphone access denied".toList),
        some ("Please allow microphone access in your browser settings".toList)⟩
    | .notFound =>
      ⟨("Microphone Permissions".toList), .skipped, ("No microphone detected".toList), none⟩
    | .otherError msg =>
      ⟨("Microphone Permissions".toList), .failed, ("Microphone check failed".toList), some msg⟩

/-- checkNotificationPermissions: report an existing decision, otherwise
actively request the permission and classify the outcome. -/
def checkNotificationPermissions (env : Env) : DiagnosticResult :=
  if !env.notifSupported then
    ⟨("Notification Permissions".toList), .failed, ("Notifications not supported".toList), none⟩
  else
    match env.notifPerm with
    | .granted =>
      ⟨("Notification Permissions".toList), .passed, ("Notifications enabled".toList), none⟩
    | .denied =>
      ⟨("Notification Permissions".toList), .failed, ("Notifications blocked".toList),
        some ("Please enable notifications in your browser settings".toList)⟩
    | .defaultPerm =>
      if env.notifRequestGranted then
        ⟨("Notification Permissions".toList), .passed, ("Notifications enabled".toList), none⟩
      else
        ⟨("Notification Permissions".toList), .failed, ("Notifications denied".toList),
          some ("Notifications are required for some features".toList)⟩

/-- The human score of checkBotDetection: passed heuristics over total,
as an exact rational (the JS double arithmetic is exact enough here: for
every k of at most 5 heuristics the double comparisons of k over 5 with
the literals 0.7 and 0.4 agree with the rational ones). -/
def botHumanScore (heuristics : List Bool) : ℚ :=
  ((heuristics.filter (fun b => b)).length : ℚ) / (heuristics.length : ℚ)

/-- checkBotDetection: five equally weighted boolean heuristics scored and
classified against the 0.7 and 0.4 thresholds. -/
def checkBotDetection (env : Env) : DiagnosticResult :=
  let heuristics := [env.bot1, env.bot2, env.bot3, env.bot4, env.bot5]
  let humanScore := botHumanScore heuristics
  if 0.7 ≤ humanScore then
    ⟨("Bot Detection".toList), .passed, ("Human interaction detected".toList), none⟩
  else if 0.4 ≤ humanScore then
    ⟨("Bot Detection".toList), .skipped, ("Uncertain detection result".toList), none⟩
  else
    ⟨("Bot Detection".toList), .failed, ("Automated interaction suspected".toList), none⟩

/-- A registered check: a display name and the check function. -/
structure DiagCheck where
  name : Str
  run : Env → DiagnosticResult

/-- The fixed ordered battery of the nine registered checks. -/
def checks : List DiagCheck :=
  [⟨("WebRTC Support".toList), checkWebRTC⟩,
   ⟨("WebGL Support".toList), checkWebGL⟩,
   ⟨("Service Workers".toList), checkServiceWorkers⟩,
   ⟨("IndexedDB Support".toList), checkIndexedDB⟩,
   ⟨("Audio Context".toList), checkAudioContext⟩,
   ⟨("Camera Permissions".toList), checkCameraPermissions⟩,
   ⟨("Microphone Permissions".toList), checkMicrophonePermissions⟩,
   ⟨("Notification Permissions".toList), checkNotificationPermissions⟩,
   ⟨("Bot Detection".toList), checkBotDetection⟩]

/-- The initial result list of a run: one pending entry per check. -/
def initResults (cs : List DiagCheck) : List DiagnosticResult :=
  cs.map (fun c => ⟨c.name, .pending, ("Checking...".toList), none⟩)

/-- The functional update of one slot of the result list (the source maps
over the previous list replacing the entry whose index equals i, which is
exactly a positional set). -/
def updateAt (res : List DiagnosticResult) (i : Nat)
    (r : DiagnosticResult) : List DiagnosticResult :=
  res.set i r

/-- The sequential loop of runDiagnostics: each check is awaited and its
result written into slot i before the next check starts. -/
def runAux (env : Env) :
    List DiagCheck → Nat → List DiagnosticResult → List DiagnosticResult
  | [], _, res => res
  | c :: rest, i, res => runAux env rest (i + 1) (updateAt res i (c.run env))

/-- runDiagnostics: initialize every slot to pending, then run the checks
strictly in order. -/
def runDiagnostics (cs : List DiagCheck) (env : Env) : List DiagnosticResult :=
  runAux env cs 0 (initResults cs)

/-- The ValidationResult shape invariant: success exactly when a sanitized
value is present and no error is present. -/
def resultInv (r : ValidationResult) : Prop :=
  r.isValid = true ↔ (r.sanitizedValue.isSome = true ∧ r.error = none)

/-- A concrete environment with exactly three passing bot heuristics. -/
def envW : Env :=
  ⟨true, false, true, true, true, true, false, true, .granted, .granted,
    true, .granted, true, true, true, true, false, false⟩

/-! Helper lemmas about the string primitives. -/

/-- Dropping a prefix by a predicate is idempotent. -/
lemma dropWhileIdem (p : Char → Bool) (s : Str) :
    List.dropWhile p (List.dropWhile p s) = List.dropWhile p s := by
  induction s with
  | nil => simp
  | cons c cs ih =>
    by_cases h : p c
    · simp [List.dropWhile_cons, h, ih]
    · simp [List.dropWhile_cons, h]

/-- rstrip returns a sublist of its input. -/
lemma rstrip_sublist (p : Char → Bool) (s : Str) :
    List.Sublist (rstrip p s) s := by
  induction s with
  | nil => simp [rstrip]
  | cons c cs ih =>
    simp only [rstrip]
    cases hr : rstrip p cs with
    | nil =>
      by_cases h : p c
      · simp [h]
      · simp only [h, if_false]
        exact (List.nil_sublist cs).cons₂ c
    | cons x xs =>
      rw [hr] at ih
      exact ih.cons₂ c

/-- rstrip of a nonempty list is empty or keeps the head. -/
lemma rstrip_cons_shape (p : Char → Bool) (c : Char) (cs : Str) :
    rstrip p (c :: cs) = [] ∨ ∃ t, rstrip p (c :: cs) = c :: t := by
  simp only [rstrip]
  cases rstrip p cs with
  | nil =>
    by_cases h : p c
    · left; simp [h]
    · right; exact ⟨[], by simp [h]⟩
  | cons x xs => right; exact ⟨x :: xs, rfl⟩

/-- Unfolding equation of rstrip on a cons cell. -/
lemma rstrip_cons_eq (p : Char → Bool) (c : Char) (cs : Str) :
    rstrip p (c :: cs) =
      match rstrip p cs with
      | [] => if p c then [] else [c]
      | x :: xs => c :: x :: xs := rfl

/-- rstrip is idempotent. -/
lemma rstrip_idem (p : Char → Bool) (s : Str) :
    rstrip p (rstrip p s) = rstrip p s := by
  induction s with
  | nil => rfl
  | cons c cs ih =>
    rw [rstrip_cons_eq p c cs]
    cases hr : rstrip p cs with
    | nil =>
      by_cases h : p c
      · simp [h, rstrip]
      · simp [h, rstrip]
    | cons x xs =>
      rw [hr] at ih
      show rstrip p (c :: x :: xs) = c :: x :: xs
      rw [rstrip_cons_eq p c (x :: xs), ih]

/-- After dropping the leading p-prefix, stripping the trailing p-suffix
creates no new leading p-prefix. -/
lemma dropWhile_rstrip_dropWhile (p : Char → Bool) (s : Str) :
    List.dropWhile p (rstrip p (List.dropWhile p s)) =
      rstrip p (List.dropWhile p s) := by
  induction s with
  | nil => simp [rstrip]
  | cons c cs ih =>
    by_cases h : p c
    · simpa [List.dropWhile_cons, h] using ih
    · simp only [List.dropWhile_cons, h, if_false]
      rcases rstrip_cons_shape p c cs with he | ⟨t, ht⟩
      · simp [he]
      · simp [ht, List.dropWhile_cons, h]

/-- trimJs is idempotent. -/
lemma trimJs_idem (s : Str) : trimJs (trimJs s) = trimJs s := by
  unfold trimJs
  rw [dropWhile_rstrip_dropWhile, rstrip_idem]

/-- trimJs returns a sublist of its input. -/
lemma trimJs_sublist (s : Str) : List.Sublist (trimJs s) s :=
  (rstrip_sublist _ _).trans (List.dropWhile_sublist _)

/-- The replace scanner returns a sublist of its input. -/
lemma replScan_sublist (pat : Str) (s : Str) :
    ∀ k, List.Sublist (replScan pat s k) s := by
  induction s with
  | nil => intro k; simp [replScan]
  | cons c cs ih =>
    intro k
    cases k with
    | succ k => exact (ih k).cons c
    | zero =>
      simp only [replScan]
      by_cases h : ciStartsWith pat (c :: cs) = true
      · simp only [h, if_true]
        exact (ih _).cons c
      · simp only [h, if_false]
        exact (ih 0).cons₂ c

/-- replaceAllCI returns a sublist of its input. -/
lemma replaceAllCI_sublist (pat s : Str) :
    List.Sublist (replaceAllCI pat s) s :=
  replScan_sublist pat s 0

/-- A string with no case-insensitive occurrence of the pattern is left
unchanged by replaceAllCI. -/
lemma replaceAllCI_of_not_contains (pat : Str) :
    ∀ s : Str, ciContains pat s = false → replaceAllCI pat s = s := by
  intro s
  induction s with
  | nil => intro _; rfl
  | cons c cs ih =>
    intro h
    simp only [ciContains, Bool.or_eq_false_iff] at h
    unfold replaceAllCI at ih ⊢
    simp [replScan, h.1, ih h.2]

/-! Claim C1. -/

/-- Claim C1 (counterexample): sanitize.text is not idempotent.  Deleting
the matched occurrence of the javascript protocol substring splices the
surrounding characters into a new occurrence, which the single
left-to-right pass does not remove; the second application then removes
it. -/
theorem sanitize_text_not_idem_cex :
    sanitize.text (sanitize.text ("javajavascript:script:".toList)) ≠
      sanitize.text ("javajavascript:script:".toList) := by decide

/-- Claim C1 (amended): sanitize.text is idempotent on every input whose
once-sanitized form contains no residual case-insensitive occurrence of
the javascript or data protocol substrings (in particular on all inputs
where deletion splices no new occurrence together). -/
theorem sanitize_text_idem_of_clean (s : Str)
    (hj : ciContains ("javascript:".toList) (sanitize.text s) = false)
    (hd : ciContains ("data:".toList) (sanitize.text s) = false) :
    sanitize.text (sanitize.text s) = sanitize.text s := by
  have hsub : List.Sublist (sanitize.text s)
      (s.filter (fun c => c != '<' && c != '>')) := by
    unfold sanitize.text
    exact (trimJs_sublist _).trans
      ((replaceAllCI_sublist _ _).trans (replaceAllCI_sublist _ _))
  have hfilter : (sanitize.text s).filter (fun c => c != '<' && c != '>') =
      sanitize.text s := by
    apply List.filter_eq_self.mpr
    intro a ha
    exact (List.mem_filter.mp (hsub.mem ha)).2
  obtain ⟨t, ht⟩ : ∃ t, sanitize.text s = t := ⟨_, rfl⟩
  rw [ht] at hj hd hfilter
  rw [ht]
  unfold sanitize.text
  rw [hfilter, replaceAllCI_of_not_contains _ _ hj,
    replaceAllCI_of_not_contains _ _ hd]
  rw [← ht]
  unfold sanitize.text
  exact trimJs_idem _

/-- Witness for the amended claim C1 at a concrete input. -/
theorem sanitize_text_idem_of_clean_witness :
    ciContains ("javascript:".toList)
        (sanitize.text ("  hello <world>  ".toList)) = false ∧
      ciContains ("data:".toList)
        (sanitize.text ("  hello <world>  ".toList)) = false ∧
      sanitize.text (sanitize.text ("  hello <world>  ".toList)) =
        sanitize.text ("  hello <world>  ".toList) :=
  ⟨by decide, by decide, sanitize_text_idem_of_clean _ (by decide) (by decide)⟩

/-! Claim C2. -/

/-- Claim C2: with fewer than three comma parts of the sanitized input,
validate.wifi fails with the provide-all-fields message; with at least
three parts, nonempty trimmed ssid and password and a recognized
uppercased security token, it succeeds with the sanitized value. -/
theorem validate_wifi_cases (s : Str) :
    ((splitOnChar ',' (sanitize.wifi s)).length < 3 →
      validate.wifi s =
        failR ("Please provide: NetworkName,Password,SecurityType".toList)) ∧
    (3 ≤ (splitOnChar ',' (sanitize.wifi s)).length →
      (trimJs ((splitOnChar ',' (sanitize.wifi s))[0]?.getD [])).isEmpty = false →
      (trimJs ((splitOnChar ',' (sanitize.wifi s))[1]?.getD [])).isEmpty = false →
      (trimJs ((splitOnChar ',' (sanitize.wifi s))[2]?.getD [])).map
        Char.toUpper ∈ validSecurity →
      validate.wifi s = okR (sanitize.wifi s)) := by
  constructor
  · intro h
    simp only [validate.wifi]
    rw [if_pos h]
  · intro h3 hs hp hsec
    simp only [validate.wifi]
    rw [if_neg (by omega), if_neg (by simp [hs]), if_neg (by simp [hp]),
      if_neg (by simp [hsec])]

/-- Witness for claim C2: a concrete short input fails with the message, a
concrete well-formed input succeeds. -/
theorem validate_wifi_cases_witness :
    validate.wifi ("MyNet".toList) =
        failR ("Please provide: NetworkName,Password,SecurityType".toList) ∧
      validate.wifi ("MyNet,pass123,wpa2".toList) =
        okR (sanitize.wifi ("MyNet,pass123,wpa2".toList)) :=
  ⟨(validate_wifi_cases _).1 (by decide),
   (validate_wifi_cases _).2 (by decide) (by decide) (by decide) (by decide)⟩

/-! Claim C3. -/

/-- Claim C3: an operation failing on attempts 1 and 2 and succeeding on
attempt 3, run with three attempts and base delay d, yields the third
attempt's value after exactly the two backoff waits d and 2 d (and no
wait after the final attempt). -/
theorem withRetry_two_failures_then_success {E A : Type}
    (op : Nat → Except E A) (d : Nat) (e1 e2 : E) (v : A)
    (h1 : op 1 = .error e1) (h2 : op 2 = .error e2) (h3 : op 3 = .ok v) :
    withRetry op 3 d = (.ok v, [d, 2 * d]) := by
  simp [withRetry, retryLoop, h1, h2, h3, Nat.mul_comm]

/-- Witness for claim C3 with a concrete operation. -/
theorem withRetry_two_failures_then_success_witness :
    (fun n => if n < 3 then (Except.error n : Except Nat Nat) else .ok 42) 1 =
        .error 1 ∧
      (fun n => if n < 3 then (Except.error n : Except Nat Nat) else .ok 42) 2 =
        .error 2 ∧
      (fun n => if n < 3 then (Except.error n : Except Nat Nat) else .ok 42) 3 =
        .ok 42 ∧
      withRetry
        (fun n => if n < 3 then (Except.error n : Except Nat Nat) else .ok 42)
        3 10 = (.ok 42, [10, 20]) :=
  ⟨rfl, rfl, rfl,
    withRetry_two_failures_then_success _ 10 1 2 42 rfl rfl rfl⟩

/-! Claim C4. -/

/-- Claim C4: appending to a ten-entry history keeps length ten, puts the
new entry first and makes the previous ninth entry (index 8) the new last
entry (index 9); after any append the length is at most ten. -/
theorem saveToHistory_bounds (nowId : Str) (now : Nat)
    (content templateName qrDataUrl : Str) (hist : List QRHistory)
    (h10 : hist.length = 10) :
    (saveToHistory nowId now content templateName qrDataUrl hist).length = 10 ∧
    (saveToHistory nowId now content templateName qrDataUrl hist).head? =
      some ⟨nowId, content, templateName, now, qrDataUrl⟩ ∧
    (saveToHistory nowId now content templateName qrDataUrl hist)[9]? =
      hist[8]? ∧
    ∀ hist' : List QRHistory,
      (saveToHistory nowId now content templateName qrDataUrl hist').length ≤ 10 := by
  refine ⟨?_, rfl, ?_, ?_⟩
  · simp [saveToHistory, List.length_take, h10]
  · simp [saveToHistory, List.getElem?_take]
  · intro hist'
    simp only [saveToHistory, List.length_cons, List.length_take]
    omega

/-- Witness for claim C4 at a concrete ten-entry history. -/
theorem saveToHistory_bounds_witness :
    (List.replicate 10 (⟨[], [], [], 0, []⟩ : QRHistory)).length = 10 ∧
      (saveToHistory [] 0 [] [] []
        (List.replicate 10 (⟨[], [], [], 0, []⟩ : QRHistory))).length = 10 :=
  ⟨by decide,
    (saveToHistory_bounds [] 0 [] [] [] _ (by decide)).1⟩

/-! Claim C7. -/

/-- Claim C7: an operation failing on all three attempts makes withRetry
fail with exactly the error of the third attempt (the most recent one,
propagated unchanged), after the two backoff waits. -/
theorem withRetry_exhausted {E A : Type} (op : Nat → Except E A) (d : Nat)
    (e1 e2 e3 : E)
    (h1 : op 1 = .error e1) (h2 : op 2 = .error e2) (h3 : op 3 = .error e3) :
    withRetry op 3 d = (.error (some e3), [d, 2 * d]) := by
  simp [withRetry, retryLoop, h1, h2, h3, Nat.mul_comm]

/-- Witness for claim C7 with a concrete always-failing operation. -/
theorem withRetry_exhausted_witness :
    (fun n => (Except.error n : Except Nat Nat)) 1 = .error 1 ∧
      (fun n => (Except.error n : Except Nat Nat)) 2 = .error 2 ∧
      (fun n => (Except.error n : Except Nat Nat)) 3 = .error 3 ∧
      withRetry (fun n => (Except.error n : Except Nat Nat)) 3 10 =
        (.error (some 3), [10, 20]) :=
  ⟨rfl, rfl, rfl, withRetry_exhausted _ 10 1 2 3 rfl rfl rfl⟩

/-! Claim C8. -/

/-- Claim C8: the wifi formatter turns the three-part example into the
WIFI payload, and leaves any input with fewer than three comma parts
unchanged. -/
theorem wifi_format_spec :
    wifiFormat ("MyNet,pass123,wpa2".toList) =
        ("WIFI:T:wpa2;S:MyNet;P:pass123;;".toList) ∧
      ∀ v : Str, (splitOnChar ',' v).length < 3 → wifiFormat v = v := by
  refine ⟨by decide, ?_⟩
  intro v h
  simp only [wifiFormat]
  rw [if_neg (by omega)]

/-- Witness for claim C8 at a concrete one-part input. -/
theorem wifi_format_spec_witness :
    (splitOnChar ',' ("abc".toList)).length < 3 ∧
      wifiFormat ("abc".toList) = ("abc".toList) :=
  ⟨by decide, wifi_format_spec.2 _ (by decide)⟩

/-! Claim C10. -/

/-- The wifi sanitizer output contains neither a semicolon nor a double
quote. -/
lemma sanitize_wifi_no_semi_quote (s : Str) :
    ∀ c ∈ sanitize.wifi s, c ≠ ';' ∧ c ≠ '"' := by
  intro c hc
  unfold sanitize.wifi at hc
  have hmem := (trimJs_sublist _).mem hc
  rcases List.mem_filter.mp hmem with ⟨_, hpred⟩
  simp only [bne_iff_ne, ne_eq, Bool.and_eq_true] at hpred
  exact hpred

/-- Claim C10: a valid wifi validation's sanitized value contains no
semicolon and no double quote, so no field later spliced into the WIFI
payload can contain the payload's field separator. -/
theorem validate_wifi_sanitized_clean (s : Str) (v : Str)
    (hvalid : (validate.wifi s).isValid = true)
    (hval : (validate.wifi s).sanitizedValue = some v) :
    ';' ∉ v ∧ '"' ∉ v := by
  have hv : v = sanitize.wifi s := by
    simp only [validate.wifi] at hval
    split at hval
    · simp [failR] at hval
    · split at hval
      · simp [failR] at hval
      · split at hval
        · simp [failR] at hval
        · split at hval
          · simp [failR] at hval
          · simp only [okR, Option.some.injEq] at hval
            exact hval.symm
  constructor
  · intro hm
    exact (sanitize_wifi_no_semi_quote s ';' (hv ▸ hm)).1 rfl
  · intro hm
    exact (sanitize_wifi_no_semi_quote s '"' (hv ▸ hm)).2 rfl

/-- Witness for claim C10 at a concrete valid input. -/
theorem validate_wifi_sanitized_clean_witness :
    (validate.wifi (" My;Net\",pass,wpa ".toList)).isValid = true ∧
      (validate.wifi (" My;Net\",pass,wpa ".toList)).sanitizedValue =
        some (sanitize.wifi (" My;Net\",pass,wpa ".toList)) ∧
      ';' ∉ sanitize.wifi (" My;Net\",pass,wpa ".toList) :=
  ⟨by decide, by decide,
    (validate_wifi_sanitized_clean (" My;Net\",pass,wpa ".toList)
      (sanitize.wifi (" My;Net\",pass,wpa ".toList))
      (by decide) (by decide)).1⟩

/-! Claim C9. -/

/-- Every failing literal satisfies the invariant. -/
lemma resultInv_failR (m : Str) : resultInv (failR m) := by
  simp [resultInv, failR]

/-- Every succeeding literal satisfies the invariant. -/
lemma resultInv_okR (v : Str) : resultInv (okR v) := by
  simp [resultInv, okR]

/-- The final step of validate.text keeps the invariant when the custom
validator does. -/
lemma resultInv_textFinish (o : ValidationOptions) (sanitized : Str)
    (hcv : ∀ f, o.customValidator = some f → ∀ v, resultInv (f v)) :
    resultInv (validate.textFinish o sanitized) := by
  unfold validate.textFinish
  cases hf : o.customValidator with
  | none => exact resultInv_okR _
  | some f => exact hcv f hf _

/-- The pattern step of validate.text keeps the invariant. -/
lemma resultInv_textPatternStep (o : ValidationOptions) (sanitized : Str)
    (hcv : ∀ f, o.customValidator = some f → ∀ v, resultInv (f v)) :
    resultInv (validate.textPatternStep o sanitized) := by
  unfold validate.textPatternStep
  repeat' split
  all_goals first
    | exact resultInv_failR _
    | exact resultInv_textFinish o sanitized hcv

/-- The maximum length step of validate.text keeps the invariant. -/
lemma resultInv_textMaxStep (o : ValidationOptions) (sanitized : Str)
    (hcv : ∀ f, o.customValidator = some f → ∀ v, resultInv (f v)) :
    resultInv (validate.textMaxStep o sanitized) := by
  unfold validate.textMaxStep
  repeat' split
  all_goals first
    | exact resultInv_failR _
    | exact resultInv_textPatternStep o sanitized hcv

/-- The minimum length step of validate.text keeps the invariant. -/
lemma resultInv_textMinStep (o : ValidationOptions) (sanitized : Str)
    (hcv : ∀ f, o.customValidator = some f → ∀ v, resultInv (f v)) :
    resultInv (validate.textMinStep o sanitized) := by
  unfold validate.textMinStep
  repeat' split
  all_goals first
    | exact resultInv_failR _
    | exact resultInv_textMaxStep o sanitized hcv

/-- The email step of validate.contact satisfies the invariant. -/
lemma resultInv_contactEmailStep (sanitized em : Str) :
    resultInv (validate.contactEmailStep sanitized em) := by
  simp only [validate.contactEmailStep]
  split
  · split
    · exact resultInv_failR _
    · exact resultInv_okR _
  · exact resultInv_okR _

/-- The phone step of validate.contact satisfies the invariant. -/
lemma resultInv_contactPhoneStep (sanitized ph em : Str) :
    resultInv (validate.contactPhoneStep sanitized ph em) := by
  simp only [validate.contactPhoneStep]
  split
  · split
    · exact resultInv_failR _
    · exact resultInv_contactEmailStep sanitized em
  · exact resultInv_contactEmailStep sanitized em

/-- Claim C9: each of the six validators returns a result that is valid
exactly when a sanitized value is present and no error is present; for
validate.text this holds whenever any supplied custom validator itself
returns results of that shape. -/
theorem validators_result_invariant :
    (∀ (o : ValidationOptions) (input : Str),
      (∀ f, o.customValidator = some f → ∀ v, resultInv (f v)) →
      resultInv (validate.text o input)) ∧
    (∀ (parse : Str → Option Str) (input : Str),
      resultInv (validate.url parse input)) ∧
    (∀ input : Str, resultInv (validate.email input)) ∧
    (∀ input : Str, resultInv (validate.phone input)) ∧
    (∀ input : Str, resultInv (validate.wifi input)) ∧
    (∀ input : Str, resultInv (validate.contact input)) := by
  refine ⟨?_, ?_, ?_, ?_, ?_, ?_⟩
  · intro o input hcv
    simp only [validate.text]
    split
    · exact resultInv_failR _
    · exact resultInv_textMinStep o _ hcv
  · intro parse input
    simp only [validate.url]
    split
    · exact resultInv_okR _
    · exact resultInv_failR _
  · intro input
    simp only [validate.email]
    split
    · exact resultInv_failR _
    · exact resultInv_okR _
  · intro input
    simp only [validate.phone]
    split
    · exact resultInv_failR _
    · exact resultInv_okR _
  · intro input
    simp only [validate.wifi]
    split
    · exact resultInv_failR _
    · split
      · exact resultInv_failR _
      · split
        · exact resultInv_failR _
        · split
          · exact resultInv_failR _
          · exact resultInv_okR _
  · intro input
    simp only [validate.contact]
    split
    · exact resultInv_failR _
    · split
      · exact resultInv_failR _
      · exact resultInv_contactPhoneStep _ _ _

/-- Witness for claim C9: the invariant holds at concrete inputs, with a
concrete custom validator discharging the hypothesis of the text case. -/
theorem validators_result_invariant_witness :
    resultInv
        (validate.text ⟨none, none, false, none, some okR⟩ ("hi".toList)) ∧
      resultInv (validate.wifi ("a,b,wpa".toList)) :=
  ⟨validators_result_invariant.1 ⟨none, none, false, none, some okR⟩ _
      (fun f hf v => (Option.some.inj hf) ▸ resultInv_okR v),
    validators_result_invariant.2.2.2.2.1 _⟩

/-! Claim C5. -/

/-- Claim C5: with k of the five equally weighted heuristics passing and
score k over 5, bot detection is passed exactly when the score is at least
0.7, skipped exactly when it is at least 0.4 but below 0.7, failed exactly
when it is below 0.4; in particular three of five passing yields skipped. -/
theorem checkBotDetection_thresholds (env : Env) (k : Nat)
    (hk : ([env.bot1, env.bot2, env.bot3, env.bot4, env.bot5].filter
      (fun b => b)).length = k) :
    ((checkBotDetection env).status = .passed ↔ (0.7 : ℚ) ≤ (k : ℚ) / 5) ∧
    ((checkBotDetection env).status = .skipped ↔
      ((0.4 : ℚ) ≤ (k : ℚ) / 5 ∧ (k : ℚ) / 5 < 0.7)) ∧
    ((checkBotDetection env).status = .failed ↔ (k : ℚ) / 5 < 0.4) ∧
    (k = 3 → (checkBotDetection env).status = .skipped) := by
  obtain ⟨_, _, _, _, _, _, _, _, _, _, _, _, _, b1, b2, b3, b4, b5⟩ := env
  subst hk
  cases b1 <;> cases b2 <;> cases b3 <;> cases b4 <;> cases b5 <;>
    simp only [checkBotDetection, botHumanScore] <;>
    norm_num <;>
    simp

/-- Witness for claim C5: in the concrete environment three heuristics
pass and the status is skipped. -/
theorem checkBotDetection_thresholds_witness :
    ([envW.bot1, envW.bot2, envW.bot3, envW.bot4, envW.bot5].filter
        (fun b => b)).length = 3 ∧
      (checkBotDetection envW).status = .skipped :=
  ⟨by decide, (checkBotDetection_thresholds envW 3 (by decide)).2.2.2 rfl⟩

/-! Claim C6. -/

/-- checkWebRTC always has its own name and a terminal status. -/
lemma checkWebRTC_shape (env : Env) :
    (checkWebRTC env).name = ("WebRTC Support".toList) ∧
      (checkWebRTC env).status ≠ .pending := by
  unfold checkWebRTC
  repeat' split
  all_goals simp

/-- checkWebGL always has its own name and a terminal status. -/
lemma checkWebGL_shape (env : Env) :
    (checkWebGL env).name = ("WebGL Support".toList) ∧
      (checkWebGL env).status ≠ .pending := by
  unfold checkWebGL
  repeat' split
  all_goals simp

/-- checkServiceWorkers always has its own name and a terminal status. -/
lemma checkServiceWorkers_shape (env : Env) :
    (checkServiceWorkers env).name = ("Service Workers".toList) ∧
      (checkServiceWorkers env).status ≠ .pending := by
  unfold checkServiceWorkers
  repeat' split
  all_goals simp

/-- checkIndexedDB always has its own name and a terminal status. -/
lemma checkIndexedDB_shape (env : Env) :
    (checkIndexedDB env).name = ("IndexedDB Support".toList) ∧
      (checkIndexedDB env).status ≠ .pending := by
  unfold checkIndexedDB
  repeat' split
  all_goals simp

/-- checkAudioContext always has its own name and a terminal status. -/
lemma checkAudioContext_shape (env : Env) :
    (checkAudioContext env).name = ("Audio Context".toList) ∧
      (checkAudioContext env).status ≠ .pending := by
  unfold checkAudioContext
  repeat' split
  all_goals simp

/-- checkCameraPermissions always has its own name and a terminal status. -/
lemma checkCameraPermissions_shape (env : Env) :
    (checkCameraPermissions env).name = ("Camera Permissions".toList) ∧
      (checkCameraPermissions env).status ≠ .pending := by
  unfold checkCameraPermissions
  repeat' split
  all_goals simp

/-- checkMicrophonePermissions always has its own name and a terminal
status. -/
lemma checkMicrophonePermissions_shape (env : Env) :
    (checkMicrophonePermissions env).name =
        ("Microphone Permissions".toList) ∧
      (checkMicrophonePermissions env).status ≠ .pending := by
  unfold checkMicrophonePermissions
  repeat' split
  all_goals simp

/-- checkNotificationPermissions always has its own name and a terminal
status. -/
lemma checkNotificationPermissions_shape (env : Env) :
    (checkNotificationPermissions env).name =
        ("Notification Permissions".toList) ∧
      (checkNotificationPermissions env).status ≠ .pending := by
  unfold checkNotificationPermissions
  repeat' split
  all_goals simp

/-- checkBotDetection always has its own name and a terminal status. -/
lemma checkBotDetection_shape (env : Env) :
    (checkBotDetection env).name = ("Bot Detection".toList) ∧
      (checkBotDetection env).status ≠ .pending := by
  simp only [checkBotDetection]
  refine ⟨?_, ?_⟩ <;> (split_ifs <;> simp)

/-- Running the nine-check battery is the in-order list of the nine check
results. -/
lemma runDiagnostics_checks_eq (env : Env) :
    runDiagnostics checks env =
      [checkWebRTC env, checkWebGL env, checkServiceWorkers env,
       checkIndexedDB env, checkAudioContext env, checkCameraPermissions env,
       checkMicrophonePermissions env, checkNotificationPermissions env,
       checkBotDetection env] := rfl

/-- Claim C6: a completed battery run yields exactly one result per
registered check (nine, with matching names in order), every status is
terminal and the pending count is zero; at the start of a run all nine
results are initialized to pending. -/
theorem diagnostics_battery (env : Env) :
    (runDiagnostics checks env).length = 9 ∧
    (runDiagnostics checks env).map (fun r => r.name) =
      checks.map (fun c => c.name) ∧
    (∀ r ∈ runDiagnostics checks env, r.status ≠ .pending) ∧
    (runDiagnostics checks env).countP (fun r => r.status == .pending) = 0 ∧
    (initResults checks).length = 9 ∧
    (∀ r ∈ initResults checks, r.status = .pending) := by
  have hmem : ∀ r ∈ runDiagnostics checks env, r.status ≠ .pending := by
    rw [runDiagnostics_checks_eq]
    intro r hr
    simp only [List.mem_cons, List.not_mem_nil, or_false] at hr
    rcases hr with rfl | rfl | rfl | rfl | rfl | rfl | rfl | rfl | rfl
    · exact (checkWebRTC_shape env).2
    · exact (checkWebGL_shape env).2
    · exact (checkServiceWorkers_shape env).2
    · exact (checkIndexedDB_shape env).2
    · exact (checkAudioContext_shape env).2
    · exact (checkCameraPermissions_shape env).2
    · exact (checkMicrophonePermissions_shape env).2
    · exact (checkNotificationPermissions_shape env).2
    · exact (checkBotDetection_shape env).2
  refine ⟨by rw [runDiagnostics_checks_eq]; simp, ?_, hmem, ?_, rfl, ?_⟩
  · rw [runDiagnostics_checks_eq]
    simp [checks, (checkWebRTC_shape env).1, (checkWebGL_shape env).1,
      (checkServiceWorkers_shape env).1, (checkIndexedDB_shape env).1,
      (checkAudioContext_shape env).1, (checkCameraPermissions_shape env).1,
      (checkMicrophonePermissions_shape env).1,
      (checkNotificationPermissions_shape env).1,
      (checkBotDetection_shape env).1]
  · apply List.countP_eq_zero.mpr
    intro r hr
    simp only [beq_iff_eq]
    exact hmem r hr
  · intro r hr
    rcases List.mem_map.mp hr with ⟨c, _, rfl⟩
    rfl

/-- Witness for claim C6 in the concrete environment. -/
theorem diagnostics_battery_witness :
    (runDiagnostics checks envW).length = 9 ∧
      (checkWebRTC envW).status ≠ .pending :=
  ⟨(diagnostics_battery envW).1,
    (diagnostics_battery envW).2.2.1 (checkWebRTC envW)
      (by rw [runDiagnostics_checks_eq]; exact List.mem_cons_self _ _)⟩
